import Mathlib

/-!
Verification of the note-list controller of the black-notebook todo app
(`src/App.jsx`). The controller keeps three pieces of state — the list of
todos, the draft text of the input field, and a loading flag — and mirrors
four remote CRUD operations onto that state. Each operation is embedded as
a pure state transformer taking the outcome of its single remote call as an
explicit argument (`Except.ok` for success, `Except.error` for failure).
-/

namespace BlackNotebook

/-- One row of the `todolist` table: `id`, `text`, `completed`, `created_at`. -/
structure Note where
  id : Nat
  text : String
  completed : Bool
  created_at : Int
deriving DecidableEq

/-- The controller state of `App`: the `todos` array, the `newTodo` draft
text bound to the input field, and the `loading` flag. -/
structure AppState where
  todos : List Note
  newTodo : String
  loading : Bool
deriving DecidableEq

/-- JavaScript `String.prototype.trim()`: drop leading and trailing
whitespace characters.  (Lean's builtin `String.trim` is not used because
its implementation does not reduce inside the kernel.) -/
def jsTrim (s : String) : String :=
  ⟨((s.data.dropWhile Char.isWhitespace).reverse.dropWhile Char.isWhitespace).reverse⟩

/-- `fetchTodos` from `App.jsx`: on a failed fetch only the loading flag is
cleared; on success the returned rows replace `todos` verbatim and the
loading flag is cleared. -/
def fetchTodos (s : AppState) (result : Except String (List Note)) : AppState :=
  match result with
  | Except.error _ => { s with loading := false }
  | Except.ok data => { s with todos := data, loading := false }

/-- `addTodo` from `App.jsx`.  If the draft is empty after trimming, the
function returns before issuing the remote insert.  Otherwise the insert is
issued; on success the returned row is prepended to `todos` and the draft is
cleared, on failure the state is untouched.  The second component of the
result records whether the remote call was issued. -/
def addTodo (s : AppState) (remote : String → Except String Note) : AppState × Bool :=
  if jsTrim s.newTodo = "" then (s, false)
  else
    match remote s.newTodo with
    | Except.error _ => (s, true)
    | Except.ok row => ({ s with todos := row :: s.todos, newTodo := "" }, true)

/-- `toggleTodo` from `App.jsx`: on remote failure the state is untouched;
on success every todo whose `id` matches is replaced by a copy whose
`completed` field is set to the negation of the caller-supplied flag, and
every other todo is returned unchanged. -/
def toggleTodo (s : AppState) (id : Nat) (completed : Bool)
    (result : Except String Unit) : AppState :=
  match result with
  | Except.error _ => s
  | Except.ok _ =>
      { s with todos := s.todos.map (fun todo =>
          if todo.id = id then { todo with completed := !completed } else todo) }

/-- `deleteTodo` from `App.jsx`: on remote failure the state is untouched;
on success `todos` is filtered to the rows whose `id` differs from the
deleted one. -/
def deleteTodo (s : AppState) (id : Nat) (result : Except String Unit) : AppState :=
  match result with
  | Except.error _ => s
  | Except.ok _ => { s with todos := s.todos.filter (fun todo => todo.id != id) }

/-- Sample rows used by the concrete witnesses. -/
def noteA : Note := ⟨5, "buy milk", false, 2⟩

/-- Second sample row, already completed, with an older timestamp. -/
def noteB : Note := ⟨6, "write spec", true, 1⟩

/-- C1: when every todo whose id matches carries the caller-supplied
current flag (the intended calling convention, `toggleTodo(todo.id,
todo.completed)`), a successful toggle preserves the length of the list,
acts as the identity-preserving map that flips the matching element's
`completed` flag and keeps every other element unchanged, and is a no-op
when no element's id matches. -/
theorem toggleTodo_success_identity_preserving (s : AppState) (i : Nat) (c : Bool)
    (hmatch : ∀ e ∈ s.todos, e.id = i → e.completed = c) :
    (toggleTodo s i c (Except.ok ())).todos.length = s.todos.length ∧
    (toggleTodo s i c (Except.ok ())).todos
      = s.todos.map (fun e => if e.id = i then { e with completed := !e.completed } else e) ∧
    ((∀ e ∈ s.todos, e.id ≠ i) → (toggleTodo s i c (Except.ok ())).todos = s.todos) := by
  refine ⟨by simp [toggleTodo], ?_, ?_⟩
  · simp only [toggleTodo]
    refine List.map_congr_left (fun e he => ?_)
    by_cases hid : e.id = i
    · simp [hid, hmatch e he hid]
    · simp [hid]
  · intro hnone
    simp only [toggleTodo]
    calc s.todos.map (fun todo =>
          if todo.id = i then { todo with completed := !c } else todo)
        = s.todos.map id := List.map_congr_left (fun e he => by simp [hnone e he])
      _ = s.todos := List.map_id s.todos

/-- Witness for C1 at the spec's example: a list containing id 5 with
`completed = false`, toggled with `toggleTodo 5 false` on success. -/
theorem toggleTodo_success_identity_preserving_witness :
    (∀ e ∈ (AppState.mk [noteA, noteB] "" false).todos, e.id = 5 → e.completed = false) ∧
    ((toggleTodo ⟨[noteA, noteB], "", false⟩ 5 false (Except.ok ())).todos.length
        = (AppState.mk [noteA, noteB] "" false).todos.length ∧
      (toggleTodo ⟨[noteA, noteB], "", false⟩ 5 false (Except.ok ())).todos
        = (AppState.mk [noteA, noteB] "" false).todos.map
            (fun e => if e.id = 5 then { e with completed := !e.completed } else e) ∧
      ((∀ e ∈ (AppState.mk [noteA, noteB] "" false).todos, e.id ≠ 5) →
        (toggleTodo ⟨[noteA, noteB], "", false⟩ 5 false (Except.ok ())).todos
          = (AppState.mk [noteA, noteB] "" false).todos)) :=
  ⟨by decide, toggleTodo_success_identity_preserving ⟨[noteA, noteB], "", false⟩ 5 false (by decide)⟩

/-- C2: when the draft is empty after trimming, `addTodo` issues no remote
call (second component `false`) and leaves the whole state unchanged. -/
theorem addTodo_empty_draft_noop (s : AppState) (remote : String → Except String Note)
    (h : jsTrim s.newTodo = "") : addTodo s remote = (s, false) := by
  simp [addTodo, h]

/-- Witness for C2 with the draft `" \t\n"`. -/
theorem addTodo_empty_draft_noop_witness :
    jsTrim (AppState.mk [noteA] " \t\n" false).newTodo = "" ∧
    addTodo ⟨[noteA], " \t\n", false⟩ (fun t => Except.ok ⟨1, t, false, 0⟩)
      = (⟨[noteA], " \t\n", false⟩, false) :=
  ⟨by decide, addTodo_empty_draft_noop ⟨[noteA], " \t\n", false⟩ _ (by decide)⟩

/-- C3: for a non-empty draft, whenever the remote insert succeeds with some
row, `addTodo` prepends that row as the new head of `todos` — for every
returned row, hence regardless of its `created_at` — keeps the rest of the
list in order, and clears the draft. -/
theorem addTodo_success_prepends (s : AppState) (remote : String → Except String Note)
    (row : Note) (h : jsTrim s.newTodo ≠ "") (hok : remote s.newTodo = Except.ok row) :
    addTodo s remote = ({ s with todos := row :: s.todos, newTodo := "" }, true) := by
  simp [addTodo, h, hok]

/-- Witness for C3: the freshly inserted row has an OLDER `created_at` (0)
than both existing rows, yet still becomes the head. -/
theorem addTodo_success_prepends_witness :
    jsTrim (AppState.mk [noteA, noteB] "new note" false).newTodo ≠ "" ∧
    (fun t => (Except.ok (Note.mk 7 t false 0) : Except String Note))
        (AppState.mk [noteA, noteB] "new note" false).newTodo
      = Except.ok (Note.mk 7 "new note" false 0) ∧
    addTodo ⟨[noteA, noteB], "new note", false⟩ (fun t => Except.ok ⟨7, t, false, 0⟩)
      = (⟨⟨7, "new note", false, 0⟩ :: [noteA, noteB], "", false⟩, true) :=
  ⟨by decide, rfl,
    addTodo_success_prepends ⟨[noteA, noteB], "new note", false⟩ _ ⟨7, "new note", false, 0⟩
      (by decide) rfl⟩

/-- C5: when the remote update fails, `toggleTodo` returns the state it was
given, so the notes list (and everything else) is exactly as before. -/
theorem toggleTodo_failure_unchanged (s : AppState) (i : Nat) (c : Bool) (msg : String) :
    toggleTodo s i c (Except.error msg) = s := rfl

/-- C8: when the initial fetch succeeds with sequence `R`, `todos` equals
`R` verbatim — element for element, in the order returned — and the loading
flag is cleared. -/
theorem fetchTodos_success (s : AppState) (R : List Note) :
    (fetchTodos s (Except.ok R)).todos = R ∧
    (∀ k, (hk : k < R.length) →
      (fetchTodos s (Except.ok R)).todos.get ⟨k, by simpa [fetchTodos] using hk⟩
        = R.get ⟨k, hk⟩) ∧
    (fetchTodos s (Except.ok R)).loading = false :=
  ⟨rfl, fun _ _ => rfl, rfl⟩

/-- C4: the local success patches of `toggleTodo` (replace-matching-id) and
`deleteTodo` (filter-matching-id) commute for distinct ids: applying them in
either order to the same state gives the same state. -/
theorem toggle_delete_commute (s : AppState) (i j : Nat) (c : Bool) (hij : i ≠ j) :
    deleteTodo (toggleTodo s i c (Except.ok ())) j (Except.ok ())
      = toggleTodo (deleteTodo s j (Except.ok ())) i c (Except.ok ()) := by
  simp only [toggleTodo, deleteTodo]
  congr 1
  induction s.todos with
  | nil => rfl
  | cons a t ih =>
    by_cases hid : a.id = i
    · have haj : a.id ≠ j := by rw [hid]; exact hij
      simp [List.filter_cons, hid, haj, hij, ih]
    · by_cases hjd : a.id = j
      · have hji : j ≠ i := fun hh => hij hh.symm
        simp [List.filter_cons, hid, hjd, hji, ih]
      · simp [List.filter_cons, hid, hjd, ih]

/-- Witness for C4 with distinct ids 5 and 6 on a two-element list. -/
theorem toggle_delete_commute_witness :
    (5 : Nat) ≠ 6 ∧
    deleteTodo (toggleTodo ⟨[noteA, noteB], "", false⟩ 5 false (Except.ok ())) 6 (Except.ok ())
      = toggleTodo (deleteTodo ⟨[noteA, noteB], "", false⟩ 6 (Except.ok ())) 5 false
          (Except.ok ()) :=
  ⟨by decide, toggle_delete_commute ⟨[noteA, noteB], "", false⟩ 5 6 false (by decide)⟩

/-- C6: for a non-empty draft, `addTodo` clears the draft exactly when the
remote insert succeeds — on success the draft becomes `""` and the returned
row is prepended, on failure both `todos` and the draft are unchanged. -/
theorem addTodo_clears_draft_iff_success (s : AppState)
    (remote : String → Except String Note) (h : jsTrim s.newTodo ≠ "") :
    (∀ row, remote s.newTodo = Except.ok row →
      addTodo s remote = ({ s with todos := row :: s.todos, newTodo := "" }, true)) ∧
    (∀ msg, remote s.newTodo = Except.error msg → addTodo s remote = (s, true)) := by
  constructor
  · intro row hok
    simp [addTodo, h, hok]
  · intro msg herr
    simp [addTodo, h, herr]

/-- Witness for C6: a failing insert leaves both `todos` and the draft
untouched. -/
theorem addTodo_clears_draft_iff_success_witness :
    jsTrim (AppState.mk [noteA] "note" false).newTodo ≠ "" ∧
    addTodo ⟨[noteA], "note", false⟩ (fun _ => Except.error "network down")
      = (⟨[noteA], "note", false⟩, true) :=
  ⟨by decide,
    (addTodo_clears_draft_iff_success ⟨[noteA], "note", false⟩
      (fun _ => Except.error "network down") (by decide)).2 "network down" rfl⟩

/-- C7: when the initial fetch fails on a state whose notes list is empty,
the error is absorbed into the returned state (nothing is re-thrown), the
loading flag is set to `false` anyway, and `todos` stays the empty list. -/
theorem fetchTodos_failure (s : AppState) (msg : String) (h : s.todos = []) :
    (fetchTodos s (Except.error msg)).todos = [] ∧
    (fetchTodos s (Except.error msg)).loading = false ∧
    (fetchTodos s (Except.error msg)).newTodo = s.newTodo :=
  ⟨h, rfl, rfl⟩

/-- Witness for C7 at the startup state (empty list, loading). -/
theorem fetchTodos_failure_witness :
    (AppState.mk [] "" true).todos = [] ∧
    ((fetchTodos ⟨[], "", true⟩ (Except.error "network down")).todos = [] ∧
      (fetchTodos ⟨[], "", true⟩ (Except.error "network down")).loading = false ∧
      (fetchTodos ⟨[], "", true⟩ (Except.error "network down")).newTodo
        = (AppState.mk [] "" true).newTodo) :=
  ⟨rfl, fetchTodos_failure ⟨[], "", true⟩ "network down" rfl⟩

/-- C9: a successful delete keeps exactly the rows whose id differs from
the argument — the result is a sublist of the original (original relative
order), membership holds iff the row was present with a different id, and
every row with a different id keeps its exact multiplicity. -/
theorem deleteTodo_success_spec (s : AppState) (i : Nat) :
    (deleteTodo s i (Except.ok ())).todos.Sublist s.todos ∧
    (∀ e, e ∈ (deleteTodo s i (Except.ok ())).todos ↔ e ∈ s.todos ∧ e.id ≠ i) ∧
    (∀ e : Note, (deleteTodo s i (Except.ok ())).todos.count e
      = if e.id = i then 0 else s.todos.count e) := by
  refine ⟨?_, ?_, ?_⟩
  · simp only [deleteTodo]
    exact List.filter_sublist s.todos
  · intro e
    simp [deleteTodo, List.mem_filter]
  · intro e
    by_cases hid : e.id = i
    · rw [if_pos hid, List.count_eq_zero]
      simp [deleteTodo, List.mem_filter, hid]
    · rw [if_neg hid]
      simp only [deleteTodo]
      exact List.count_filter (by simp [hid])

/-- C10: the success patch of `toggleTodo` writes the constant `!completed`
(the negation of the caller-supplied flag) into every matching row, so
running it twice with the same arguments equals running it once. -/
theorem toggleTodo_success_idempotent (s : AppState) (i : Nat) (c : Bool) :
    toggleTodo (toggleTodo s i c (Except.ok ())) i c (Except.ok ())
      = toggleTodo s i c (Except.ok ()) := by
  simp only [toggleTodo]
  congr 1
  rw [List.map_map]
  refine List.map_congr_left (fun e he => ?_)
  by_cases hid : e.id = i
  · simp [Function.comp, hid]
  · simp [Function.comp, hid]

end BlackNotebook
